import Mathlib

/-!
Shallow embedding of the GCAFO booking REST API (`src/server.js`, with the
alternate deployment variant in `src/unnamed/part_000`) and proofs about the
behaviour its specification claims.

Modelling conventions:
* Each SQL table is a Lean structure; the database is a `DB` record of row
  lists plus one counter per `SERIAL` column.
* `DECIMAL(p,2)` columns (`note_moyenne`, `tarif_horaire`, `prix`,
  `prix_final`) are exact fixed-point values; they are stored as integer
  hundredths.  `roundHundredths` is the `::numeric(3,2)` cast (round half
  away from zero, which for the nonnegative averages arising here agrees
  with `round` on `ℚ`; `roundHundredths_eq_round` makes that precise).
* `bcrypt` is modelled deterministically (the salt is omitted):
  `bcryptCompare p h` succeeds exactly when `h` is the hash of `p`.
* A JWT is a pair of its claims and the secret it was signed with;
  `jwtVerify` with the signing secret recovers exactly the signed claims.
  Expiry is not modelled (no clock).
* Each Express handler becomes a function from the request data and the
  current `DB` to the new `DB` and a result mirroring the HTTP response
  (`created` ≈ 201, `conflict` ≈ 400, `unauthorized` ≈ 401, `forbidden` ≈
  403, `notFound` ≈ 404, `serverError` ≈ 500).  Database errors (CHECK or
  NOT NULL violations, broken foreign keys) are surfaced as `serverError`,
  matching the handlers' catch-all `catch` blocks.
* `node-pg` row objects (`SELECT u.*, p.*`) are association lists of
  column name / value pairs built with JavaScript-object semantics
  (`mkObj`: first occurrence fixes the position, a later duplicate column
  overwrites the value, as node-pg does for `u.id`/`p.id`).
-/

namespace GcafoBooking

/-! ### JSON-ish row objects -/

/-- A JSON value as it appears in a response row. -/
inductive Value where
  | vNull : Value
  | vBool : Bool → Value
  | vInt : Int → Value
  | vStr : String → Value
deriving DecidableEq, Repr

/-- A row/response object: column names with values, unique keys once built
by `mkObj`. -/
abbrev Obj := List (String × Value)

/-- Set a key in an object, JavaScript style: overwrite in place if the key
exists, else append. -/
def objSet (o : Obj) (k : String) (v : Value) : Obj :=
  if o.any (fun f => f.1 == k) then
    o.map (fun f => if f.1 == k then (k, v) else f)
  else
    o ++ [(k, v)]

/-- Build an object from a field list, later duplicates overwriting earlier
values (node-pg row semantics for `SELECT u.*, p.*`). -/
def mkObj (fields : List (String × Value)) : Obj :=
  fields.foldl (fun acc f => objSet acc f.1 f.2) []

/-- Does the object expose a field with the given name? -/
def rowHasField (o : Obj) (k : String) : Bool :=
  o.any (fun f => f.1 == k)

/-- Read a field. -/
def rowGet (o : Obj) (k : String) : Option Value :=
  (o.find? (fun f => f.1 == k)).map (fun f => f.2)

/-- Read a field expected to hold an integer (the `id` columns do); the
fallback is never reached on rows built here. -/
def rowGetInt (o : Obj) (k : String) : Int :=
  match rowGet o k with
  | some (Value.vInt n) => n
  | _ => 0

/-- Remove a field, as JavaScript rest destructuring
`const { password: _, ...rest } = row` does. -/
def stripField (o : Obj) (k : String) : Obj :=
  o.filter (fun f => f.1 != k)

/-- A nullable text column as a JSON value. -/
def optStr : Option String → Value
  | none => Value.vNull
  | some s => Value.vStr s

/-- A nullable integer column as a JSON value. -/
def optInt : Option Int → Value
  | none => Value.vNull
  | some n => Value.vInt n

/-! ### Password hashing and tokens -/

/-- Deterministic model of `bcrypt.hash` (work factor kept, salt omitted). -/
def bcryptHash (password : String) (cost : Nat) : String :=
  "bcrypt$" ++ toString cost ++ "$" ++ password

/-- Model of `bcrypt.compare`: succeeds exactly on the stored hash of the
same password (registration hashes with work factor 10). -/
def bcryptCompare (password hash : String) : Bool :=
  hash == bcryptHash password 10

/-- The claims object both `jwt.sign` call sites embed. -/
structure JwtClaims where
  userId : Nat
  email : String
  role : String
deriving DecidableEq, Repr

/-- A signed token: opaque to clients, the server only creates it via
`jwtSign` and consumes it via `jwtVerify`. -/
structure Token where
  claims : JwtClaims
  secret : String
deriving DecidableEq, Repr

/-- Stand-in for the `process.env.JWT_SECRET` value. -/
def jwtSecret : String := "env:JWT_SECRET"

/-- Model of `jwt.sign` (the 24h expiry is not modelled). -/
def jwtSign (claims : JwtClaims) (secret : String) : Token :=
  { claims := claims, secret := secret }

/-- Model of `jwt.verify`: with the signing secret it recovers exactly the
signed claims, with any other secret it fails. -/
def jwtVerify (t : Token) (secret : String) : Option JwtClaims :=
  if t.secret == secret then some t.claims else none

/-! ### The relational schema (`initDatabase`) -/

/-- A `users` row. -/
structure User where
  id : Nat
  email : String
  password : String
  role : String
  full_name : String
  phone : Option String := none
  profile_image : Option String := none
  is_verified : Bool := false
  is_certified : Bool := false
  ville : Option String := none
  secteur : Option String := none
  created_at : Nat := 0
  updated_at : Nat := 0
deriving DecidableEq, Repr

/-- A `prestataire_profiles` row (`note_moyenne` in hundredths). -/
structure PrestataireProfile where
  id : Nat
  user_id : Nat
  metier : String
  description : Option String := none
  annees_experience : Option Int := none
  tarif_horaire : Option Int := none
  zone_intervention : Option String := none
  adresse : Option String := none
  portfolio : Option String := none
  disponibilites : Option String := none
  note_moyenne : Int := 0
  nombre_avis : Nat := 0
deriving DecidableEq, Repr

/-- A `services` row (`prix` in hundredths). -/
structure Service where
  id : Nat
  prestataire_id : Nat
  nom_service : String
  description : Option String := none
  prix : Option Int := none
  duree_estimee : Option Int := none
  categorie : Option String := none
  created_at : Nat := 0
deriving DecidableEq, Repr

/-- A `bookings` row (`prix_final` in hundredths). -/
structure Booking where
  id : Nat
  client_id : Nat
  prestataire_id : Nat
  service_id : Nat
  date_reservation : Nat := 0
  statut : String := "en_attente"
  adresse_prestation : Option String := none
  prix_final : Option Int := none
  notes_client : Option String := none
  created_at : Nat := 0
  updated_at : Nat := 0
deriving DecidableEq, Repr

/-- A `reviews` row. -/
structure Review where
  id : Nat
  booking_id : Nat
  note : Int
  commentaire : Option String := none
  photos_review : Option String := none
  created_at : Nat := 0
deriving DecidableEq, Repr

/-- A `messages` row. -/
structure Message where
  id : Nat
  booking_id : Nat
  expediteur_id : Nat
  message : String
  lu : Bool := false
  created_at : Nat := 0
deriving DecidableEq, Repr

/-- Database state: the six tables plus one counter per `SERIAL` column. -/
structure DB where
  users : List User := []
  prestataire_profiles : List PrestataireProfile := []
  services : List Service := []
  bookings : List Booking := []
  reviews : List Review := []
  messages : List Message := []
  next_user_id : Nat := 1
  next_profile_id : Nat := 1
  next_service_id : Nat := 1
  next_booking_id : Nat := 1
  next_review_id : Nat := 1
  next_message_id : Nat := 1
deriving DecidableEq, Repr

/-- The `users.role` CHECK constraint. -/
def validRole (r : String) : Bool :=
  r == "client" || r == "prestataire"

/-- The `bookings.statut` CHECK constraint list (server.js line 100). -/
def allowedStatuts : List String :=
  ["en_attente", "confirme", "annule", "termine"]

/-! ### SQL helpers -/

/-- The nonempty suffixes of a list followed by `[]`: every way the SQL
wildcard `%` can split off the rest of the text. -/
def suffixes : List Char → List (List Char)
  | [] => [[]]
  | c :: s => (c :: s) :: suffixes s

/-- SQL `LIKE` pattern matching over characters: `%` matches any sequence,
`_` any single character, a backslash escapes the next pattern character.
A pattern ending in a dangling backslash is an error in PostgreSQL; it is
rendered here as matching nothing. -/
def likeMatch : List Char → List Char → Bool
  | [], cs => cs.isEmpty
  | p :: ps, cs =>
    if p = '%' then
      (suffixes cs).any (fun t => likeMatch ps t)
    else if p = '\\' then
      (match ps, cs with
       | q :: ps', c :: cs' => (q == c) && likeMatch ps' cs'
       | _, _ => false)
    else if p = '_' then
      (match cs with
       | [] => false
       | _ :: cs' => likeMatch ps cs')
    else
      (match cs with
       | [] => false
       | c :: cs' => (p == c) && likeMatch ps cs')

/-- `ILIKE`: case-insensitive `LIKE` (both sides lower-cased). -/
def ilikeStr (s pat : String) : Bool :=
  likeMatch (pat.toList.map Char.toLower) (s.toList.map Char.toLower)

/-- `col ILIKE pat` on a nullable column: `NULL` never matches. -/
def optIlike : Option String → String → Bool
  | none, _ => false
  | some s, pat => ilikeStr s pat

/-- Is `pat` an initial segment of `s`? -/
def isPref : List Char → List Char → Bool
  | [], _ => true
  | _ :: _, [] => false
  | p :: ps, c :: cs => (p == c) && isPref ps cs

/-- Does `pat` occur contiguously inside `s`? -/
def containsSub (pat : List Char) : List Char → Bool
  | [] => pat.isEmpty
  | c :: s' => isPref pat (c :: s') || containsSub pat s'

/-- Case-insensitive substring containment: what the specification means by
"city contains the filter substring (case-insensitive)". -/
def strContainsCI (s pat : String) : Bool :=
  containsSub (pat.toList.map Char.toLower) (s.toList.map Char.toLower)

/-- A chunk of `LIKE` pattern free of wildcards and escapes. -/
def litOnly (l : List Char) : Bool :=
  l.all (fun c => c != '%' && c != '_' && c != '\\')

/-- Stable insertion for descending sort by a key. -/
def insertDesc {α β : Type} [LinearOrder β] (key : α → β) (x : α) : List α → List α
  | [] => [x]
  | y :: ys => if key y < key x then x :: y :: ys else y :: insertDesc key x ys

/-- Stable descending sort by a key (`ORDER BY key DESC`). -/
def sortDesc {α β : Type} [LinearOrder β] (key : α → β) : List α → List α
  | [] => []
  | x :: xs => insertDesc key x (sortDesc key xs)

/-- The `::numeric(3,2)` cast applied to the exact average `s / c`, on the
hundredths scale: round half away from zero of `100 * s / c` (for the
nonnegative sums arising from ratings this is half-up rounding). -/
def roundHundredths (s c : Int) : Int :=
  (200 * s + c) / (2 * c)

/-! ### Row builders -/

/-- The `u.*` columns of a `users` row in table order. -/
def userRowFields (u : User) : List (String × Value) :=
  [("id", Value.vInt u.id), ("email", Value.vStr u.email),
   ("password", Value.vStr u.password), ("role", Value.vStr u.role),
   ("full_name", Value.vStr u.full_name), ("phone", optStr u.phone),
   ("profile_image", optStr u.profile_image),
   ("is_verified", Value.vBool u.is_verified),
   ("is_certified", Value.vBool u.is_certified),
   ("ville", optStr u.ville), ("secteur", optStr u.secteur),
   ("created_at", Value.vInt u.created_at),
   ("updated_at", Value.vInt u.updated_at)]

/-- The `p.*` columns of a `prestataire_profiles` row in table order. -/
def profileRowFields (p : PrestataireProfile) : List (String × Value) :=
  [("id", Value.vInt p.id), ("user_id", Value.vInt p.user_id),
   ("metier", Value.vStr p.metier), ("description", optStr p.description),
   ("annees_experience", optInt p.annees_experience),
   ("tarif_horaire", optInt p.tarif_horaire),
   ("zone_intervention", optStr p.zone_intervention),
   ("adresse", optStr p.adresse), ("portfolio", optStr p.portfolio),
   ("disponibilites", optStr p.disponibilites),
   ("note_moyenne", Value.vInt p.note_moyenne),
   ("nombre_avis", Value.vInt p.nombre_avis)]

/-- The `r.*` columns of a `reviews` row in table order. -/
def reviewRowFields (r : Review) : List (String × Value) :=
  [("id", Value.vInt r.id), ("booking_id", Value.vInt r.booking_id),
   ("note", Value.vInt r.note), ("commentaire", optStr r.commentaire),
   ("photos_review", optStr r.photos_review),
   ("created_at", Value.vInt r.created_at)]

/-- The projection of `GET /api/prestataires`:
`u.id, u.full_name, ..., p.metier, ..., u.ville, u.secteur`. -/
def providerListRow (u : User) (p : PrestataireProfile) : Obj :=
  mkObj
    [("id", Value.vInt u.id), ("full_name", Value.vStr u.full_name),
     ("profile_image", optStr u.profile_image),
     ("is_verified", Value.vBool u.is_verified),
     ("is_certified", Value.vBool u.is_certified),
     ("metier", Value.vStr p.metier), ("description", optStr p.description),
     ("note_moyenne", Value.vInt p.note_moyenne),
     ("nombre_avis", Value.vInt p.nombre_avis),
     ("zone_intervention", optStr p.zone_intervention),
     ("tarif_horaire", optInt p.tarif_horaire),
     ("annees_experience", optInt p.annees_experience),
     ("ville", optStr u.ville), ("secteur", optStr u.secteur)]

/-! ### Handlers: authentication (`POST /api/auth/register`, `POST /api/auth/login`) -/

/-- The request body of `POST /api/auth/register`. -/
structure RegisterInput where
  email : String
  password : String
  full_name : String
  phone : Option String := none
  role : String
  ville : Option String := none
  secteur : Option String := none
deriving DecidableEq, Repr

/-- Outcome of `POST /api/auth/register`. -/
inductive RegisterResult where
  | conflict : RegisterResult
  | created (token : Token) (user : Obj) : RegisterResult
  | serverError : RegisterResult
deriving DecidableEq, Repr

/-- The freshly inserted `users` row of a successful registration. -/
def newUserOf (db : DB) (inp : RegisterInput) (now : Nat) : User :=
  { id := db.next_user_id, email := inp.email,
    password := bcryptHash inp.password 10, role := inp.role,
    full_name := inp.full_name, phone := inp.phone,
    ville := inp.ville, secteur := inp.secteur,
    created_at := now, updated_at := now }

/-- Database after a successful registration: the user row is inserted, and
for role `prestataire` a default profile (`metier = "Général"`) as well. -/
def registerDb (db : DB) (inp : RegisterInput) (now : Nat) : DB :=
  let u := newUserOf db inp now
  let db1 := { db with users := db.users ++ [u],
                       next_user_id := db.next_user_id + 1 }
  if inp.role == "prestataire" then
    { db1 with
      prestataire_profiles := db1.prestataire_profiles ++
        [{ id := db1.next_profile_id, user_id := u.id, metier := "Général" }],
      next_profile_id := db1.next_profile_id + 1 }
  else
    db1

/-- The response user object of register: the handler rebuilds it from six
fields, so the password hash never appears. -/
def regUserObj (u : User) : Obj :=
  mkObj
    [("id", Value.vInt u.id), ("email", Value.vStr u.email),
     ("full_name", Value.vStr u.full_name), ("role", Value.vStr u.role),
     ("ville", optStr u.ville), ("secteur", optStr u.secteur)]

/-- `POST /api/auth/register`: 400 if the email is taken, otherwise hash the
password, insert the user (the `users.role` CHECK applies), create a default
provider profile for role `prestataire`, and sign a token over
`{userId, email, role}`. -/
def register (db : DB) (inp : RegisterInput) (now : Nat) : DB × RegisterResult :=
  match db.users.find? (fun u => u.email == inp.email) with
  | some _ => (db, RegisterResult.conflict)
  | none =>
    if validRole inp.role then
      (registerDb db inp now,
       RegisterResult.created
         (jwtSign { userId := db.next_user_id, email := inp.email,
                    role := inp.role } jwtSecret)
         (regUserObj (newUserOf db inp now)))
    else
      (db, RegisterResult.serverError)

/-- Outcome of `POST /api/auth/login`. -/
inductive LoginResult where
  | unauthorized (error : String) : LoginResult
  | ok (token : Token) (user : Obj) : LoginResult
deriving DecidableEq, Repr

/-- The response user object of login (nine fields, no password). -/
def loginUserObj (u : User) : Obj :=
  mkObj
    [("id", Value.vInt u.id), ("email", Value.vStr u.email),
     ("full_name", Value.vStr u.full_name), ("role", Value.vStr u.role),
     ("is_verified", Value.vBool u.is_verified),
     ("is_certified", Value.vBool u.is_certified),
     ("ville", optStr u.ville), ("secteur", optStr u.secteur),
     ("profile_image", optStr u.profile_image)]

/-- `POST /api/auth/login`: one generic 401 message both when the email is
unknown and when the password hash does not match. -/
def login (db : DB) (email password : String) : LoginResult :=
  match db.users.find? (fun u => u.email == email) with
  | none => LoginResult.unauthorized "Email ou mot de passe incorrect"
  | some u =>
    if bcryptCompare password u.password then
      LoginResult.ok
        (jwtSign { userId := u.id, email := u.email, role := u.role } jwtSecret)
        (loginUserObj u)
    else
      LoginResult.unauthorized "Email ou mot de passe incorrect"

/-! ### Handlers: provider directory -/

/-- Outcome of `GET /api/prestataires`. -/
inductive PrestatairesResult where
  | ok (prestataires : List Obj) (page : Nat) (limit : Nat) : PrestatairesResult
  | serverError : PrestatairesResult
deriving DecidableEq, Repr

/-- The rows of `users INNER JOIN prestataire_profiles` restricted to
`role = 'prestataire'` and the two optional `ILIKE '%…%'` filters. -/
def filteredProviders (db : DB) (ville metier : Option String) :
    List (User × PrestataireProfile) :=
  (db.users.flatMap (fun u =>
      (db.prestataire_profiles.filter (fun p => p.user_id == u.id)).map
        (fun p => (u, p)))).filter
    (fun up =>
      up.1.role == "prestataire" &&
      (match ville with
       | none => true
       | some v => optIlike up.1.ville ("%" ++ v ++ "%")) &&
      (match metier with
       | none => true
       | some m => ilikeStr up.2.metier ("%" ++ m ++ "%")))

/-- `GET /api/prestataires`: filter, sort by `note_moyenne DESC`, then
`LIMIT limit OFFSET (page-1)*limit`.  A page of 0 makes the JavaScript
offset negative, which PostgreSQL rejects (caught as 500). -/
def getPrestataires (db : DB) (ville metier : Option String)
    (page limit : Nat) : PrestatairesResult :=
  let offset : Int := ((page : Int) - 1) * (limit : Int)
  if offset < 0 then
    PrestatairesResult.serverError
  else
    PrestatairesResult.ok
      ((((sortDesc (fun up => up.2.note_moyenne)
            (filteredProviders db ville metier)).map
          (fun up => providerListRow up.1 up.2)).drop offset.toNat).take limit)
      page limit

/-- Outcome of `GET /api/prestataires/:id`. -/
inductive PrestataireDetail where
  | notFound : PrestataireDetail
  | ok (prestataire : Obj) (services : List Service) (avis : List Obj) :
      PrestataireDetail
deriving DecidableEq, Repr

/-- `SELECT u.*, p.* FROM users u INNER JOIN prestataire_profiles p ON
u.id = p.user_id WHERE u.id = $1 AND u.role = 'prestataire'` as node-pg row
objects (the duplicate `id`/`description` columns collapse, `p.*` winning). -/
def prestataireJoinRows (db : DB) (uid : Nat) : List Obj :=
  (db.users.filter (fun u => u.id == uid && u.role == "prestataire")).flatMap
    (fun u =>
      (db.prestataire_profiles.filter (fun p => p.user_id == u.id)).map
        (fun p => mkObj (userRowFields u ++ profileRowFields p)))

/-- The provider's services, newest first. -/
def serviceRowsFor (db : DB) (pid : Int) : List Service :=
  sortDesc (fun s => s.created_at)
    (db.services.filter (fun s => ((s.prestataire_id : Int)) == pid))

/-- The provider's reviews joined with the reviewing client, newest first,
`LIMIT 20`. -/
def avisRowsFor (db : DB) (pid : Int) : List Obj :=
  let joined := db.reviews.flatMap (fun r =>
    (db.bookings.filter (fun b =>
        b.id == r.booking_id && ((b.prestataire_id : Int)) == pid)).flatMap
      (fun b =>
        (db.users.filter (fun u => u.id == b.client_id)).map (fun u => (r, u))))
  ((sortDesc (fun ru => ru.1.created_at) joined).take 20).map (fun ru =>
    mkObj (reviewRowFields ru.1 ++
      [("client_name", Value.vStr ru.2.full_name),
       ("client_image", optStr ru.2.profile_image)]))

/-- `GET /api/prestataires/:id` as implemented in `src/server.js`
(lines 304–346): the joined row — password column included — is returned
unmodified; the sub-queries key on `rows[0].id`, which by the node-pg
column collapse is the profile id. -/
def getPrestataireById (db : DB) (uid : Nat) : PrestataireDetail :=
  match prestataireJoinRows db uid with
  | [] => PrestataireDetail.notFound
  | row :: _ =>
    let pid := rowGetInt row "id"
    PrestataireDetail.ok row (serviceRowsFor db pid) (avisRowsFor db pid)

/-- `GET /api/prestataires/:id` as implemented in the deployment variant
`src/unnamed/part_000` (lines 293–337): identical except that the password
field is removed from the joined row by rest destructuring before the
response is built. -/
def getPrestataireByIdRender (db : DB) (uid : Nat) : PrestataireDetail :=
  match prestataireJoinRows db uid with
  | [] => PrestataireDetail.notFound
  | row :: _ =>
    let pid := rowGetInt row "id"
    PrestataireDetail.ok (stripField row "password")
      (serviceRowsFor db pid) (avisRowsFor db pid)

/-- The request body of `PUT /api/prestataires/profile` (absent JSON fields
arrive as `NULL`). -/
structure ProfileInput where
  metier : Option String := none
  description : Option String := none
  annees_experience : Option Int := none
  tarif_horaire : Option Int := none
  zone_intervention : Option String := none
  adresse : Option String := none
  portfolio : Option String := none
  disponibilites : Option String := none
deriving DecidableEq, Repr

/-- Outcome of `PUT /api/prestataires/profile`. -/
inductive ProfileResult where
  | notFound : ProfileResult
  | ok (profile : PrestataireProfile) : ProfileResult
  | serverError : ProfileResult
deriving DecidableEq, Repr

/-- `PUT /api/prestataires/profile`: full replace of all eight profile
fields for the caller's profile; 404 when no profile row matches; omitting
`metier` violates its NOT NULL constraint (500). -/
def updateProfile (db : DB) (callerId : Nat) (inp : ProfileInput) :
    DB × ProfileResult :=
  match db.prestataire_profiles.find? (fun p => p.user_id == callerId) with
  | none => (db, ProfileResult.notFound)
  | some p =>
    match inp.metier with
    | none => (db, ProfileResult.serverError)
    | some m =>
      let upd := fun (q : PrestataireProfile) =>
        { q with metier := m, description := inp.description,
                 annees_experience := inp.annees_experience,
                 tarif_horaire := inp.tarif_horaire,
                 zone_intervention := inp.zone_intervention,
                 adresse := inp.adresse, portfolio := inp.portfolio,
                 disponibilites := inp.disponibilites }
      let newProfiles := db.prestataire_profiles.map
        (fun q => if q.user_id == callerId then upd q else q)
      ({ db with prestataire_profiles := newProfiles },
       ProfileResult.ok (upd p))

/-! ### Handlers: services and bookings -/

/-- The request body of `POST /api/services`. -/
structure ServiceInput where
  nom_service : String
  description : Option String := none
  prix : Option Int := none
  duree_estimee : Option Int := none
  categorie : Option String := none
deriving DecidableEq, Repr

/-- Outcome of `POST /api/services`. -/
inductive ServiceResult where
  | forbidden : ServiceResult
  | notFound : ServiceResult
  | created (service : Service) : ServiceResult
  | serverError : ServiceResult
deriving DecidableEq, Repr

/-- `POST /api/services`: 403 unless the caller's role is `prestataire`,
404 without a profile row; an unknown caller id crashes the role lookup
(`rows[0].role`), surfaced as 500. -/
def createService (db : DB) (callerId : Nat) (inp : ServiceInput) (now : Nat) :
    DB × ServiceResult :=
  match db.users.find? (fun u => u.id == callerId) with
  | none => (db, ServiceResult.serverError)
  | some u =>
    if u.role != "prestataire" then
      (db, ServiceResult.forbidden)
    else
      match db.prestataire_profiles.find? (fun p => p.user_id == callerId) with
      | none => (db, ServiceResult.notFound)
      | some p =>
        let s : Service :=
          { id := db.next_service_id, prestataire_id := p.id,
            nom_service := inp.nom_service, description := inp.description,
            prix := inp.prix, duree_estimee := inp.duree_estimee,
            categorie := inp.categorie, created_at := now }
        ({ db with services := db.services ++ [s],
                   next_service_id := db.next_service_id + 1 },
         ServiceResult.created s)

/-- The request body of `POST /api/bookings`. -/
structure BookingInput where
  prestataire_id : Nat
  service_id : Nat
  date_reservation : Nat := 0
  adresse_prestation : Option String := none
  notes : Option String := none
deriving DecidableEq, Repr

/-- Outcome of `POST /api/bookings`. -/
inductive BookingResult where
  | created (booking : Booking) : BookingResult
  | serverError : BookingResult
deriving DecidableEq, Repr

/-- `POST /api/bookings`: unconditional insert with the caller as client and
`statut` defaulting to `en_attente`; a broken foreign key fails the insert
(500). -/
def createBooking (db : DB) (callerId : Nat) (inp : BookingInput) (now : Nat) :
    DB × BookingResult :=
  if db.users.any (fun u => u.id == callerId) &&
     db.prestataire_profiles.any (fun p => p.id == inp.prestataire_id) &&
     db.services.any (fun s => s.id == inp.service_id) then
    let b : Booking :=
      { id := db.next_booking_id, client_id := callerId,
        prestataire_id := inp.prestataire_id, service_id := inp.service_id,
        date_reservation := inp.date_reservation,
        adresse_prestation := inp.adresse_prestation,
        notes_client := inp.notes, created_at := now, updated_at := now }
    ({ db with bookings := db.bookings ++ [b],
               next_booking_id := db.next_booking_id + 1 },
     BookingResult.created b)
  else
    (db, BookingResult.serverError)

/-- Outcome of `PUT /api/bookings/:id/status`. -/
inductive BookingStatusResult where
  | ok (booking : Booking) : BookingStatusResult
  | notFound : BookingStatusResult
  | serverError : BookingStatusResult
deriving DecidableEq, Repr

/-- `PUT /api/bookings/:id/status`: the caller's identity is never
consulted.  When no booking matches the id, PostgreSQL updates zero rows
and the handler answers 404 whatever the supplied value; when a row
matches, the `bookings.statut` CHECK constraint accepts only the four
schema statuts, any other value failing the UPDATE (caught as 500). -/
def updateBookingStatus (db : DB) (_callerId : Nat) (bid : Nat)
    (statut : String) (now : Nat) : DB × BookingStatusResult :=
  match db.bookings.find? (fun b => b.id == bid) with
  | none => (db, BookingStatusResult.notFound)
  | some b =>
    if statut ∈ allowedStatuts then
      ({ db with bookings := db.bookings.map (fun x =>
            if x.id == bid then { x with statut := statut, updated_at := now }
            else x) },
       BookingStatusResult.ok { b with statut := statut, updated_at := now })
    else
      (db, BookingStatusResult.serverError)

/-! ### Handlers: reviews and messages -/

/-- Outcome of `POST /api/reviews`. -/
inductive ReviewResult where
  | forbidden : ReviewResult
  | conflict : ReviewResult
  | created (review : Review) : ReviewResult
  | serverError : ReviewResult
deriving DecidableEq, Repr

/-- The `note` column of every review joined to a booking of the given
provider profile (`reviews r INNER JOIN bookings b ON r.booking_id = b.id
WHERE b.prestataire_id = pid`). -/
def linkedReviewNotes (db : DB) (pid : Nat) : List Int :=
  db.reviews.flatMap (fun r =>
    (db.bookings.filter (fun b =>
        b.id == r.booking_id && b.prestataire_id == pid)).map
      (fun _ => r.note))

/-- The review INSERT: append the row, advance the sequence. -/
def insertReviewDb (db : DB) (r : Review) : DB :=
  { db with reviews := db.reviews ++ [r],
            next_review_id := db.next_review_id + 1 }

/-- The aggregate UPDATE after a review insert: recompute `note_moyenne`
(`AVG(r.note)::numeric(3,2)`, here on the hundredths scale) and
`nombre_avis` (`COUNT(*)`) of the profile `pid` from all linked reviews.
The handler only runs it right after inserting a linked review, so the join
is never empty there. -/
def recomputeAggregates (db : DB) (pid : Nat) : DB :=
  { db with prestataire_profiles := db.prestataire_profiles.map (fun p =>
      if p.id == pid then
        { p with
          note_moyenne := roundHundredths (linkedReviewNotes db pid).sum
            ((linkedReviewNotes db pid).length : Int),
          nombre_avis := (linkedReviewNotes db pid).length }
      else p) }

/-- `POST /api/reviews`: 403 unless a booking with the given id belongs to
the caller as client and is `termine`; 400 when a review already exists for
that booking; otherwise insert the review (the `reviews.note` CHECK admits
only 1–5; a violation fails the insert before any aggregate update) and
recompute the owning provider's aggregates. -/
def createReview (db : DB) (callerId bid : Nat) (note : Int)
    (commentaire : Option String) (now : Nat) : DB × ReviewResult :=
  match db.bookings.find? (fun b =>
      b.id == bid && b.client_id == callerId && b.statut == "termine") with
  | none => (db, ReviewResult.forbidden)
  | some b =>
    match db.reviews.find? (fun r => r.booking_id == bid) with
    | some _ => (db, ReviewResult.conflict)
    | none =>
      if 1 ≤ note ∧ note ≤ 5 then
        let r : Review :=
          { id := db.next_review_id, booking_id := bid, note := note,
            commentaire := commentaire, created_at := now }
        (recomputeAggregates (insertReviewDb db r) b.prestataire_id,
         ReviewResult.created r)
      else
        (db, ReviewResult.serverError)

/-- Outcome of `POST /api/messages`. -/
inductive MessageResult where
  | created (message_data : Message) : MessageResult
  | serverError : MessageResult
deriving DecidableEq, Repr

/-- `POST /api/messages`: unconditional insert attributed to the caller (no
participation check); a broken foreign key fails the insert (500). -/
def sendMessage (db : DB) (callerId bid : Nat) (message : String) (now : Nat) :
    DB × MessageResult :=
  if db.bookings.any (fun b => b.id == bid) &&
     db.users.any (fun u => u.id == callerId) then
    let m : Message :=
      { id := db.next_message_id, booking_id := bid,
        expediteur_id := callerId, message := message, created_at := now }
    ({ db with messages := db.messages ++ [m],
               next_message_id := db.next_message_id + 1 },
     MessageResult.created m)
  else
    (db, MessageResult.serverError)

/-! ### Response projections and concrete database states -/

/-- Does the provider-detail response expose a `password` field in the
`prestataire` object? -/
def detailHasPassword (r : PrestataireDetail) : Bool :=
  match r with
  | PrestataireDetail.ok row _ _ => rowHasField row "password"
  | PrestataireDetail.notFound => false

/-- The `id` field of the user object of a successful registration. -/
def createdUserId (r : RegisterResult) : Option Int :=
  match r with
  | RegisterResult.created _ o =>
    (match rowGet o "id" with
     | some (Value.vInt n) => some n
     | _ => none)
  | _ => none

/-- The claims recovered by verifying a successful login's token with the
signing secret. -/
def loginClaims (r : LoginResult) : Option JwtClaims :=
  match r with
  | LoginResult.ok t _ => jwtVerify t jwtSecret
  | _ => none

/-- The rows of a provider-list response. -/
def listRows (r : PrestatairesResult) : List Obj :=
  match r with
  | PrestatairesResult.ok rows _ _ => rows
  | PrestatairesResult.serverError => []

/-- The invariant "at most one `prestataire_profiles` row per user". -/
def profilesOneToOne (db : DB) : Prop :=
  (db.prestataire_profiles.map PrestataireProfile.user_id).Nodup

/-- A stored provider for exercising the provider-detail endpoint. -/
def c1db : DB :=
  { users := [{ id := 1, email := "p@gcafo.bf",
                password := bcryptHash "motdepasse" 10, role := "prestataire",
                full_name := "Presta Un", ville := some "Ouaga" }],
    prestataire_profiles := [{ id := 1, user_id := 1, metier := "Général" }],
    next_user_id := 2, next_profile_id := 2 }

/-- A stored booking for exercising the status-update endpoint. -/
def c2db : DB :=
  { users := [{ id := 1, email := "c@gcafo.bf", password := bcryptHash "pw" 10,
                role := "client", full_name := "Client Un" }],
    bookings := [{ id := 1, client_id := 1, prestataire_id := 1,
                   service_id := 1 }],
    next_user_id := 2, next_booking_id := 2 }

/-- A completed, unreviewed booking (client 1 of provider profile 1). -/
def c3db : DB :=
  { users := [{ id := 1, email := "c@gcafo.bf", password := bcryptHash "cpw" 10,
                role := "client", full_name := "Client Un" },
              { id := 2, email := "p@gcafo.bf", password := bcryptHash "ppw" 10,
                role := "prestataire", full_name := "Presta Un" }],
    prestataire_profiles := [{ id := 1, user_id := 2, metier := "Général" }],
    services := [{ id := 1, prestataire_id := 1, nom_service := "Plomberie" }],
    bookings := [{ id := 1, client_id := 1, prestataire_id := 1,
                   service_id := 1, statut := "termine" }],
    next_user_id := 3, next_profile_id := 2, next_service_id := 2,
    next_booking_id := 2 }

/-- Same shape as `c3db`, for the review-creation error claims. -/
def c4db : DB :=
  { users := [{ id := 1, email := "c2@gcafo.bf", password := bcryptHash "cpw" 10,
                role := "client", full_name := "Client Deux" },
              { id := 2, email := "p2@gcafo.bf", password := bcryptHash "ppw" 10,
                role := "prestataire", full_name := "Presta Deux" }],
    prestataire_profiles := [{ id := 1, user_id := 2, metier := "Général" }],
    services := [{ id := 1, prestataire_id := 1, nom_service := "Peinture" }],
    bookings := [{ id := 1, client_id := 1, prestataire_id := 1,
                   service_id := 1, statut := "termine" }],
    next_user_id := 3, next_profile_id := 2, next_service_id := 2,
    next_booking_id := 2 }

/-- Registration inputs with distinct fresh emails. -/
def c5i1 : RegisterInput :=
  { email := "a@gcafo.bf", password := "pw1", full_name := "A", role := "client" }

/-- Second registration input, distinct email. -/
def c5i2 : RegisterInput :=
  { email := "b@gcafo.bf", password := "pw2", full_name := "B",
    role := "prestataire" }

/-- One stored user for the login-indistinguishability witness. -/
def c6db : DB :=
  { users := [{ id := 1, email := "c@gcafo.bf", password := bcryptHash "cpw" 10,
                role := "client", full_name := "Client Un" }],
    next_user_id := 2 }

/-- Registration input for the token round-trip witness. -/
def c7inp : RegisterInput :=
  { email := "c@gcafo.bf", password := "pw", full_name := "C", role := "client" }

/-- Provider registration input for the profile-creation witness. -/
def c8inp : RegisterInput :=
  { email := "p@gcafo.bf", password := "pw", full_name := "P",
    role := "prestataire" }

/-- One stored provider in Paris for the provider-list claims. -/
def c9db : DB :=
  { users := [{ id := 1, email := "paris@gcafo.bf",
                password := bcryptHash "pw" 10, role := "prestataire",
                full_name := "Presta Paris", ville := some "Paris" }],
    prestataire_profiles := [{ id := 1, user_id := 1, metier := "Général" }],
    next_user_id := 2, next_profile_id := 2 }

/-- A completed, unreviewed booking for the failed-insert claim. -/
def c10db : DB :=
  { users := [{ id := 1, email := "c3@gcafo.bf", password := bcryptHash "cpw" 10,
                role := "client", full_name := "Client Trois" },
              { id := 2, email := "p3@gcafo.bf", password := bcryptHash "ppw" 10,
                role := "prestataire", full_name := "Presta Trois" }],
    prestataire_profiles := [{ id := 1, user_id := 2, metier := "Général" }],
    services := [{ id := 1, prestataire_id := 1, nom_service := "Jardinage" }],
    bookings := [{ id := 1, client_id := 1, prestataire_id := 1,
                   service_id := 1, statut := "termine" }],
    next_user_id := 3, next_profile_id := 2, next_service_id := 2,
    next_booking_id := 2 }

/-! ### Lemmas about the SQL helpers -/

theorem isPref_nil (l : List Char) : isPref l [] = l.isEmpty := by
  cases l <;> rfl

theorem suffixes_any_isEmpty (cs : List Char) :
    (suffixes cs).any (fun t => t.isEmpty) = true := by
  induction cs with
  | nil => rfl
  | cons c s ih => simp [suffixes, ih]

theorem likeMatch_nil (cs : List Char) : likeMatch [] cs = cs.isEmpty := rfl

/-- Unfolding the `%` head of a pattern: it splits off an arbitrary rest of
the text. -/
theorem likeMatch_percent (ps cs : List Char) :
    likeMatch ('%' :: ps) cs = (suffixes cs).any (fun t => likeMatch ps t) := by
  rw [likeMatch.eq_def]
  simp

theorem likeMatch_lit_of_nil (a : Char) (ps : List Char) (h1 : a ≠ '%')
    (h2 : a ≠ '\\') (h3 : a ≠ '_') : likeMatch (a :: ps) [] = false := by
  rw [likeMatch.eq_def]
  simp [h1, h2, h3]

theorem likeMatch_lit_of_cons (a : Char) (ps : List Char) (c : Char)
    (cs : List Char) (h1 : a ≠ '%') (h2 : a ≠ '\\') (h3 : a ≠ '_') :
    likeMatch (a :: ps) (c :: cs) = ((a == c) && likeMatch ps cs) := by
  rw [likeMatch.eq_def]
  simp [h1, h2, h3]

/-- A wildcard-free pattern chunk followed by `%` matches exactly the texts
it is a prefix of. -/
theorem likeMatch_lit_percent (l : List Char) (hl : litOnly l = true) :
    ∀ cs, likeMatch (l ++ ['%']) cs = isPref l cs := by
  induction l with
  | nil =>
    intro cs
    show likeMatch ['%'] cs = isPref [] cs
    rw [likeMatch_percent]
    simp [likeMatch_nil, suffixes_any_isEmpty, isPref]
  | cons a l ih =>
    intro cs
    simp only [litOnly, List.all_cons, Bool.and_eq_true, bne_iff_ne, ne_eq] at hl
    obtain ⟨⟨⟨ha1, ha2⟩, ha3⟩, hl'⟩ := hl
    have ih' := ih (by simpa [litOnly] using hl')
    cases cs with
    | nil =>
      rw [List.cons_append, likeMatch_lit_of_nil a _ ha1 ha3 ha2, isPref]
    | cons c cs' =>
      rw [List.cons_append, likeMatch_lit_of_cons a _ c cs' ha1 ha3 ha2]
      simp [isPref, ih']

theorem containsSub_eq_any (l cs : List Char) :
    containsSub l cs = (suffixes cs).any (fun t => isPref l t) := by
  induction cs with
  | nil => simp [containsSub, suffixes, isPref_nil]
  | cons c s ih => simp [containsSub, suffixes, ih]

/-- `LIKE '%l%'` with a wildcard-free chunk `l` is exactly contiguous
containment of `l`. -/
theorem likeMatch_percent_wrap (l : List Char) (hl : litOnly l = true)
    (cs : List Char) :
    likeMatch ('%' :: (l ++ ['%'])) cs = containsSub l cs := by
  rw [likeMatch_percent, containsSub_eq_any]
  simp only [likeMatch_lit_percent l hl]

/-- `ILIKE '%v%'` with `v` free of wildcard/escape characters is exactly
case-insensitive substring containment. -/
theorem ilikeStr_wrap (s v : String)
    (hl : litOnly (v.toList.map Char.toLower) = true) :
    ilikeStr s ("%" ++ v ++ "%") = strContainsCI s v := by
  unfold ilikeStr strContainsCI
  have h1 : ("%" ++ v ++ "%").toList = '%' :: (v.toList ++ ['%']) := by
    simp [String.toList]
  have h2 : Char.toLower '%' = '%' := by decide
  rw [h1]
  simp only [List.map_cons, List.map_append, List.map_nil, h2]
  exact likeMatch_percent_wrap _ hl _

theorem isPref_iff (p s : List Char) :
    isPref p s = true ↔ ∃ t, s = p ++ t := by
  induction p generalizing s with
  | nil => simp [isPref]
  | cons a p ih =>
    cases s with
    | nil => simp [isPref]
    | cons c s' =>
      simp only [isPref, Bool.and_eq_true, beq_iff_eq, ih, List.cons_append,
        List.cons.injEq]
      constructor
      · rintro ⟨rfl, t, rfl⟩
        exact ⟨t, rfl, rfl⟩
      · rintro ⟨t, rfl, rfl⟩
        exact ⟨rfl, t, rfl⟩

/-- `containsSub` really is contiguous (infis) containment. -/
theorem containsSub_iff (p s : List Char) :
    containsSub p s = true ↔ ∃ l r, s = l ++ p ++ r := by
  induction s with
  | nil =>
    simp only [containsSub, List.isEmpty_iff]
    constructor
    · rintro rfl
      exact ⟨[], [], rfl⟩
    · rintro ⟨l, r, h⟩
      rcases List.append_eq_nil.mp h.symm with ⟨h1, h2⟩
      exact (List.append_eq_nil.mp h1).2
  | cons c s' ih =>
    simp only [containsSub, Bool.or_eq_true, isPref_iff, ih]
    constructor
    · rintro (⟨t, ht⟩ | ⟨l, r, rfl⟩)
      · exact ⟨[], t, by simp [ht]⟩
      · exact ⟨c :: l, r, rfl⟩
    · rintro ⟨l, r, h⟩
      cases l with
      | nil =>
        exact Or.inl ⟨r, by simpa using h⟩
      | cons x l' =>
        rw [List.cons_append, List.cons_append, List.cons.injEq] at h
        exact Or.inr ⟨l', r, h.2⟩

/-! ### Lemmas about descending insertion sort -/

theorem mem_insertDesc {α β : Type} [LinearOrder β] (key : α → β) (x a : α)
    (l : List α) : a ∈ insertDesc key x l ↔ a = x ∨ a ∈ l := by
  induction l with
  | nil => simp [insertDesc]
  | cons y ys ih =>
    by_cases h : key y < key x
    · simp [insertDesc, h]
    · simp only [insertDesc, if_neg h, List.mem_cons, ih]
      tauto

theorem mem_sortDesc {α β : Type} [LinearOrder β] (key : α → β) (a : α)
    (l : List α) : a ∈ sortDesc key l ↔ a ∈ l := by
  induction l with
  | nil => simp [sortDesc]
  | cons x xs ih => simp [sortDesc, mem_insertDesc, ih]

theorem sorted_insertDesc {α β : Type} [LinearOrder β] (key : α → β) (x : α)
    (l : List α) (h : l.Pairwise (fun a b => key b ≤ key a)) :
    (insertDesc key x l).Pairwise (fun a b => key b ≤ key a) := by
  induction l with
  | nil => simp [insertDesc]
  | cons y ys ih =>
    rw [List.pairwise_cons] at h
    by_cases hk : key y < key x
    · rw [insertDesc, if_pos hk, List.pairwise_cons]
      refine ⟨?_, List.pairwise_cons.mpr h⟩
      intro b hb
      rcases List.mem_cons.mp hb with rfl | hb'
      · exact hk.le
      · exact (h.1 b hb').trans hk.le
    · rw [insertDesc, if_neg hk, List.pairwise_cons]
      refine ⟨?_, ih h.2⟩
      intro b hb
      rcases (mem_insertDesc key x b ys).mp hb with rfl | hb'
      · exact le_of_not_lt hk
      · exact h.1 b hb'

/-- `sortDesc` output is descending in the key. -/
theorem sorted_sortDesc {α β : Type} [LinearOrder β] (key : α → β)
    (l : List α) :
    (sortDesc key l).Pairwise (fun a b => key b ≤ key a) := by
  induction l with
  | nil => simp [sortDesc]
  | cons x xs ih => exact sorted_insertDesc key x _ ih

/-! ### Rounding -/

/-- On the hundredths scale, `roundHundredths` is exactly the value of the
average rounded to two decimal places: `round (s / c * 100)`. -/
theorem roundHundredths_eq_round (s c : ℤ) (hc : 0 < c) :
    roundHundredths s c = round ((s : ℚ) / (c : ℚ) * 100) := by
  have hcq : ((c : ℚ)) ≠ 0 := Int.cast_ne_zero.mpr hc.ne'
  have h2 : (s : ℚ) / (c : ℚ) * 100 + 1 / 2 =
      ((200 * s + c : ℤ) : ℚ) / (((2 * c).toNat : ℕ) : ℚ) := by
    have ht : (((2 * c).toNat : ℕ) : ℚ) = ((2 * c : ℤ) : ℚ) := by
      rw [← Int.cast_natCast, Int.toNat_of_nonneg (by omega)]
    rw [ht]
    push_cast
    field_simp
    ring
  rw [round_eq, h2, Rat.floor_intCast_div_natCast]
  rw [roundHundredths]
  congr 1
  rw [Int.toNat_of_nonneg (by omega : (0:ℤ) ≤ 2 * c)]

/-! ### List utilities for unique keys -/

/-- Mapping a function that does not change the tested predicate commutes
with `find?`. -/
theorem find?_map_pred {α : Type} (p : α → Bool) (f : α → α)
    (hf : ∀ x, p (f x) = p x) (l : List α) :
    (l.map f).find? p = (l.find? p).map f := by
  induction l with
  | nil => rfl
  | cons x xs ih =>
    rw [List.map_cons, List.find?_cons, List.find?_cons, hf x]
    cases hpx : p x <;> simp [ih]

/-- In a list whose keys are distinct, filtering by a predicate that pins
the key down to a satisfied element's key yields exactly that element. -/
theorem filter_eq_singleton_of_nodup {α : Type} (key : α → Nat) (l : List α)
    (hn : (l.map key).Nodup) (a : α) (ha : a ∈ l) (p : α → Bool)
    (hkey : ∀ x ∈ l, p x = true → key x = key a) (hpa : p a = true) :
    l.filter p = [a] := by
  induction l with
  | nil => cases ha
  | cons y ys ih =>
    rw [List.map_cons, List.nodup_cons] at hn
    rcases List.mem_cons.mp ha with rfl | ha'
    · rw [List.filter_cons, if_pos hpa]
      have hnil : ys.filter p = [] := by
        rw [List.filter_eq_nil_iff]
        intro x hx hpx
        exact hn.1 (by
          rw [← hkey x (List.mem_cons_of_mem _ hx) hpx]
          exact List.mem_map_of_mem key hx)
      rw [hnil]
    · have hpy : p y = false := by
        cases hpy : p y
        · rfl
        · exfalso
          apply hn.1
          rw [hkey y (List.mem_cons_self y ys) hpy]
          exact List.mem_map_of_mem key ha'
      rw [List.filter_cons, if_neg (by simp [hpy])]
      exact ih hn.2 ha' (fun x hx => hkey x (List.mem_cons_of_mem _ hx))

/-- With distinct emails, `find?` by email returns the member that carries
that email. -/
theorem find?_unique_email (l : List User) (hnd : (l.map User.email).Nodup)
    (u : User) (hu : u ∈ l) (e : String) (he : u.email = e) :
    l.find? (fun x => x.email == e) = some u := by
  induction l with
  | nil => cases hu
  | cons y ys ih =>
    rw [List.map_cons, List.nodup_cons] at hnd
    rcases List.mem_cons.mp hu with rfl | hu'
    · have heq : (u.email == e) = true := by simp [he]
      simp [List.find?_cons, heq]
    · have hy : (y.email == e) = false := by
        apply beq_eq_false_iff_ne.mpr
        intro hcontra
        apply hnd.1
        rw [hcontra, ← he]
        exact List.mem_map_of_mem User.email hu'
      simp only [List.find?_cons, hy]
      exact ih hnd.2 hu'

/-! ### Claim C1 -/

/-- C1: the claim says `GET /api/prestataires/:id` strips the password from
the joined row.  The handler in `src/server.js` returns the joined row
unmodified, so the response's `prestataire` object carries the stored
bcrypt hash; the variant in `src/unnamed/part_000` — and the specification
— strip it.  At the stored provider `c1db` (user/profile id 1) the
`server.js` response contains a `password` field while the `part_000`
response does not. -/
theorem C1_password_not_stripped :
    getPrestataireById c1db 1 ≠ PrestataireDetail.notFound ∧
    detailHasPassword (getPrestataireById c1db 1) = true ∧
    getPrestataireByIdRender c1db 1 ≠ PrestataireDetail.notFound ∧
    detailHasPassword (getPrestataireByIdRender c1db 1) = false := by
  decide

/-! ### Claim C2 -/

/-- C2 counterexample: a booking with id 1 exists, yet supplying the status
value `"statut_inconnu"` does not set the booking's status to that value
and does not return the updated row — the `bookings.statut` CHECK
constraint fails the UPDATE, the handler answers 500, and the stored
status is unchanged.  This refutes "sets the booking's status to exactly
the given value whenever a booking row with that id exists … no
restriction on the supplied value is applied". -/
theorem C2_counterexample :
    (∃ b ∈ c2db.bookings, b.id = 1) ∧
    updateBookingStatus c2db 7 1 "statut_inconnu" 5 =
      (c2db, BookingStatusResult.serverError) ∧
    (updateBookingStatus c2db 7 1 "statut_inconnu" 5).1.bookings.map
      Booking.statut = ["en_attente"] := by
  decide

/-- C2 (amended): for any authenticated caller — the handler never consults
the caller's identity — and any booking id, the update answers NotFound
when no booking matches the id; when a booking matches and the supplied
value is one of the four statuts admitted by the `bookings.statut` CHECK
constraint, the status is set unconditionally to that value and the
updated row is returned; when a booking matches but the value is outside
the CHECK list, the UPDATE fails, the handler answers 500 and the database
is unchanged. -/
theorem C2_status_update (db : DB) (caller caller' bid : Nat) (s : String)
    (now : Nat) :
    ((∀ b ∈ db.bookings, b.id ≠ bid) →
      updateBookingStatus db caller bid s now = (db, BookingStatusResult.notFound)) ∧
    (∀ b, db.bookings.find? (fun x => x.id == bid) = some b →
      s ∈ allowedStatuts →
      (updateBookingStatus db caller bid s now).2 =
        BookingStatusResult.ok { b with statut := s, updated_at := now } ∧
      ∀ x ∈ (updateBookingStatus db caller bid s now).1.bookings,
        x.id = bid → x.statut = s) ∧
    (∀ b, db.bookings.find? (fun x => x.id == bid) = some b →
      s ∉ allowedStatuts →
      updateBookingStatus db caller bid s now = (db, BookingStatusResult.serverError)) ∧
    updateBookingStatus db caller bid s now =
      updateBookingStatus db caller' bid s now := by
  refine ⟨?_, ?_, ?_, rfl⟩
  · intro h
    have hf : db.bookings.find? (fun b => b.id == bid) = none := by
      rw [List.find?_eq_none]
      intro b hb
      simpa using h b hb
    simp [updateBookingStatus, hf]
  · intro b hb hs
    constructor
    · simp [updateBookingStatus, hb, hs]
    · intro x hx hxid
      simp only [updateBookingStatus, hb, if_pos hs] at hx
      rcases List.mem_map.mp hx with ⟨y, _, hxy⟩
      by_cases hyid : (y.id == bid) = true
      · rw [if_pos hyid] at hxy
        rw [← hxy]
      · rw [if_neg hyid] at hxy
        subst hxy
        exact absurd (beq_iff_eq.mpr hxid) hyid
  · intro b hb hs
    simp [updateBookingStatus, hb, hs]

/-- C2 witness: on `c2db` the allowed value `"confirme"` is set and the
updated row returned. -/
theorem C2_status_update_witness :
    (updateBookingStatus c2db 7 1 "confirme" 5).2 =
      BookingStatusResult.ok
        { id := 1, client_id := 1, prestataire_id := 1, service_id := 1,
          statut := "confirme", updated_at := 5 } :=
  ((C2_status_update c2db 7 7 1 "confirme" 5).2.1
    { id := 1, client_id := 1, prestataire_id := 1, service_id := 1 }
    (by decide) (by decide)).1

/-! ### Claim C6 -/

/-- C6: an unknown email and a known email with a non-matching password
produce the same observable login failure — status 401 with the identical
generic message — so the two runs are indistinguishable to the caller. -/
theorem C6_login_indistinguishable (db : DB) (e1 p1 e2 p2 : String) (u : User)
    (h1 : ∀ x ∈ db.users, x.email ≠ e1)
    (hu : u ∈ db.users) (he : u.email = e2)
    (hnd : (db.users.map User.email).Nodup)
    (hc : bcryptCompare p2 u.password = false) :
    login db e1 p1 = LoginResult.unauthorized "Email ou mot de passe incorrect" ∧
    login db e2 p2 = LoginResult.unauthorized "Email ou mot de passe incorrect" ∧
    login db e1 p1 = login db e2 p2 := by
  have hf1 : db.users.find? (fun x => x.email == e1) = none := by
    rw [List.find?_eq_none]
    intro x hx
    simpa using h1 x hx
  have hf2 : db.users.find? (fun x => x.email == e2) = some u :=
    find?_unique_email db.users hnd u hu e2 he
  refine ⟨?_, ?_, ?_⟩ <;> simp [login, hf1, hf2, hc]

/-- C6 witness: on `c6db`, logging in with an absent email and with the
stored email but a wrong password give literally equal responses. -/
theorem C6_witness :
    login c6db "ghost@gcafo.bf" "nimporte" =
      LoginResult.unauthorized "Email ou mot de passe incorrect" ∧
    login c6db "c@gcafo.bf" "mauvais" =
      LoginResult.unauthorized "Email ou mot de passe incorrect" ∧
    login c6db "ghost@gcafo.bf" "nimporte" = login c6db "c@gcafo.bf" "mauvais" :=
  C6_login_indistinguishable c6db "ghost@gcafo.bf" "nimporte" "c@gcafo.bf"
    "mauvais"
    { id := 1, email := "c@gcafo.bf", password := bcryptHash "cpw" 10,
      role := "client", full_name := "Client Un" }
    (by decide) (by decide) (by decide) (by decide) (by decide)

/-! ### Claim C10 -/

/-- C10: when the booking precondition holds and no review exists but the
review insert itself violates the `reviews.note` CHECK (rating outside
1–5), the handler answers 500 and the database — in particular the owning
provider's `note_moyenne` and `nombre_avis` — is unchanged: the aggregate
recompute runs only after a successful insert. -/
theorem C10_error_leaves_state (db : DB) (caller bid : Nat) (note : Int)
    (comm : Option String) (now : Nat) (b : Booking)
    (hb : db.bookings.find? (fun x =>
        x.id == bid && x.client_id == caller && x.statut == "termine") = some b)
    (hnor : ∀ r ∈ db.reviews, r.booking_id ≠ bid)
    (hnote : ¬(1 ≤ note ∧ note ≤ 5)) :
    createReview db caller bid note comm now = (db, ReviewResult.serverError) ∧
    (createReview db caller bid note comm now).1.prestataire_profiles =
      db.prestataire_profiles := by
  have hr : db.reviews.find? (fun r => r.booking_id == bid) = none := by
    rw [List.find?_eq_none]
    intro r hrr
    simpa using hnor r hrr
  constructor
  · simp [createReview, hb, hr, hnote]
  · simp [createReview, hb, hr, hnote]

/-- C10 witness: on `c10db` a rating of 7 is rejected with 500 and the
profile table is untouched. -/
theorem C10_witness :
    createReview c10db 1 1 7 none 9 = (c10db, ReviewResult.serverError) ∧
    (createReview c10db 1 1 7 none 9).1.prestataire_profiles =
      c10db.prestataire_profiles :=
  C10_error_leaves_state c10db 1 1 7 none 9
    { id := 1, client_id := 1, prestataire_id := 1, service_id := 1,
      statut := "termine" }
    (by decide) (by decide) (by decide)

/-! ### Claim C4 -/

/-- C4: creating a review answers Forbidden unless a booking with the given
id exists whose client is the caller and whose status is `termine`
("completed"); when such a booking exists but a review for that booking
already exists it answers Conflict and leaves the database unchanged;
otherwise (for a rating admitted by the schema CHECK) the review is
inserted and returned with 201. -/
theorem C4_review_gatekeeping (db : DB) (caller bid : Nat) (note : Int)
    (comm : Option String) (now : Nat) :
    ((∀ b ∈ db.bookings,
        ¬(b.id = bid ∧ b.client_id = caller ∧ b.statut = "termine")) →
      createReview db caller bid note comm now = (db, ReviewResult.forbidden)) ∧
    (∀ b, db.bookings.find? (fun x =>
        x.id == bid && x.client_id == caller && x.statut == "termine") = some b →
      (∃ r ∈ db.reviews, r.booking_id = bid) →
      createReview db caller bid note comm now = (db, ReviewResult.conflict)) ∧
    (∀ b, db.bookings.find? (fun x =>
        x.id == bid && x.client_id == caller && x.statut == "termine") = some b →
      (∀ r ∈ db.reviews, r.booking_id ≠ bid) → 1 ≤ note → note ≤ 5 →
      (createReview db caller bid note comm now).2 =
        ReviewResult.created
          { id := db.next_review_id, booking_id := bid, note := note,
            commentaire := comm, created_at := now } ∧
      (createReview db caller bid note comm now).1.reviews =
        db.reviews ++
          [{ id := db.next_review_id, booking_id := bid, note := note,
             commentaire := comm, created_at := now }]) := by
  refine ⟨?_, ?_, ?_⟩
  · intro h
    have hbnone : db.bookings.find? (fun x =>
        x.id == bid && x.client_id == caller && x.statut == "termine") = none := by
      rw [List.find?_eq_none]
      intro b hb
      simpa using h b hb
    simp [createReview, hbnone]
  · rintro b hb ⟨r, hr, hrb⟩
    have hsome : (db.reviews.find? (fun r => r.booking_id == bid)).isSome := by
      rw [List.find?_isSome]
      exact ⟨r, hr, by simpa using hrb⟩
    obtain ⟨r', hr'⟩ := Option.isSome_iff_exists.mp hsome
    simp [createReview, hb, hr']
  · intro b hb hno h1 h5
    have hrnone : db.reviews.find? (fun r => r.booking_id == bid) = none := by
      rw [List.find?_eq_none]
      intro r hrr
      simpa using hno r hrr
    constructor
    · simp [createReview, hb, hrnone, h1, h5]
    · simp [createReview, hb, hrnone, h1, h5, recomputeAggregates,
        insertReviewDb]

/-- C4 witness: on `c4db` a first review with rating 4 is inserted and
returned. -/
theorem C4_witness :
    (createReview c4db 1 1 4 none 9).2 =
      ReviewResult.created { id := 1, booking_id := 1, note := 4, created_at := 9 } ∧
    (createReview c4db 1 1 4 none 9).1.reviews =
      [{ id := 1, booking_id := 1, note := 4, created_at := 9 }] := by
  have h := (C4_review_gatekeeping c4db 1 1 4 none 9).2.2
    { id := 1, client_id := 1, prestataire_id := 1, service_id := 1,
      statut := "termine" }
    (by decide) (by decide) (by decide) (by decide)
  simpa [c4db] using h

/-! ### Claim C5 -/

theorem registerDb_users (db : DB) (inp : RegisterInput) (now : Nat) :
    (registerDb db inp now).users = db.users ++ [newUserOf db inp now] := by
  rw [registerDb]
  split <;> rfl

theorem registerDb_next_user_id (db : DB) (inp : RegisterInput) (now : Nat) :
    (registerDb db inp now).next_user_id = db.next_user_id + 1 := by
  rw [registerDb]
  split <;> rfl

theorem rowGet_regUserObj_id (u : User) :
    rowGet (regUserObj u) "id" = some (Value.vInt (u.id : Int)) := rfl

/-- C5: registering with an existing email answers Conflict and leaves the
database (in particular the users table) unchanged; two registrations with
distinct fresh emails (and schema-valid roles) both succeed with 201 and
the returned user objects carry distinct ids. -/
theorem C5_register_conflict_and_fresh (db : DB) (i1 i2 : RegisterInput)
    (n1 n2 : Nat) :
    ((∃ u ∈ db.users, u.email = i1.email) →
      register db i1 n1 = (db, RegisterResult.conflict)) ∧
    ((∀ u ∈ db.users, u.email ≠ i1.email) →
     (∀ u ∈ db.users, u.email ≠ i2.email) →
      i1.email ≠ i2.email → validRole i1.role = true → validRole i2.role = true →
      createdUserId (register db i1 n1).2 = some (db.next_user_id : Int) ∧
      createdUserId (register (register db i1 n1).1 i2 n2).2 =
        some ((db.next_user_id : Int) + 1) ∧
      (db.next_user_id : Int) ≠ (db.next_user_id : Int) + 1) := by
  constructor
  · rintro ⟨u, hu, hue⟩
    have hsome : (db.users.find? (fun x => x.email == i1.email)).isSome := by
      rw [List.find?_isSome]
      exact ⟨u, hu, by simpa using hue⟩
    obtain ⟨u', hu'⟩ := Option.isSome_iff_exists.mp hsome
    simp [register, hu']
  · intro h1 h2 hne hr1 hr2
    have hf1 : db.users.find? (fun x => x.email == i1.email) = none := by
      rw [List.find?_eq_none]
      intro x hx
      simpa using h1 x hx
    have e1snd : (register db i1 n1).2 =
        RegisterResult.created
          (jwtSign { userId := db.next_user_id, email := i1.email,
                     role := i1.role } jwtSecret)
          (regUserObj (newUserOf db i1 n1)) := by
      simp [register, hf1, hr1]
    have e1fst : (register db i1 n1).1 = registerDb db i1 n1 := by
      simp [register, hf1, hr1]
    have hf2 : (registerDb db i1 n1).users.find?
        (fun x => x.email == i2.email) = none := by
      rw [List.find?_eq_none]
      intro x hx
      rw [registerDb_users] at hx
      rcases List.mem_append.mp hx with hx' | hx'
      · simpa using h2 x hx'
      · have hx2 : x = newUserOf db i1 n1 := by simpa using hx'
        subst hx2
        simpa [newUserOf] using hne
    have e2snd : (register (registerDb db i1 n1) i2 n2).2 =
        RegisterResult.created
          (jwtSign { userId := (registerDb db i1 n1).next_user_id,
                     email := i2.email, role := i2.role } jwtSecret)
          (regUserObj (newUserOf (registerDb db i1 n1) i2 n2)) := by
      simp [register, hf2, hr2]
    refine ⟨?_, ?_, by omega⟩
    · rw [e1snd]
      simp [createdUserId, rowGet_regUserObj_id, newUserOf]
    · rw [e1fst, e2snd]
      simp [createdUserId, rowGet_regUserObj_id, newUserOf,
        registerDb_next_user_id]

/-- C5 witness: from the empty database, registering `c5i1` then `c5i2`
yields user ids 1 and 2. -/
theorem C5_witness :
    createdUserId (register ({} : DB) c5i1 1).2 = some 1 ∧
    createdUserId (register (register ({} : DB) c5i1 1).1 c5i2 2).2 = some 2 ∧
    (1 : Int) ≠ 2 := by
  have h := (C5_register_conflict_and_fresh ({} : DB) c5i1 c5i2 1 2).2
    (by decide) (by decide) (by decide) (by decide) (by decide)
  simpa using h

/-! ### Claim C7 -/

/-- C7: after a successful registration, the registration token verifies
under the signing secret to `{userId, email, role}` of the new user, a
login with the same email and password succeeds and its token verifies to
the same claims, and those claims are exactly the id/email/role recorded
in the users table at registration. -/
theorem C7_token_roundtrip (db : DB) (inp : RegisterInput) (now : Nat)
    (db' : DB) (t : Token) (o : Obj)
    (h : register db inp now = (db', RegisterResult.created t o)) :
    jwtVerify t jwtSecret =
      some { userId := db.next_user_id, email := inp.email, role := inp.role } ∧
    loginClaims (login db' inp.email inp.password) =
      some { userId := db.next_user_id, email := inp.email, role := inp.role } ∧
    (db'.users.find? (fun x => x.email == inp.email)).map
        (fun u => (u.id, u.email, u.role)) =
      some (db.next_user_id, inp.email, inp.role) := by
  cases hf : db.users.find? (fun u => u.email == inp.email) with
  | some u => simp [register, hf] at h
  | none =>
    by_cases hr : validRole inp.role = true
    · have hh : (registerDb db inp now,
          RegisterResult.created
            (jwtSign { userId := db.next_user_id, email := inp.email,
                       role := inp.role } jwtSecret)
            (regUserObj (newUserOf db inp now))) =
          (db', RegisterResult.created t o) := by
        rw [← h]
        simp [register, hf, hr]
      rw [Prod.mk.injEq] at hh
      obtain ⟨hdb, hcr⟩ := hh
      injection hcr with ht ho
      subst hdb
      subst ht
      have hfind : (registerDb db inp now).users.find?
          (fun x => x.email == inp.email) = some (newUserOf db inp now) := by
        rw [registerDb_users, List.find?_append, hf]
        simp [newUserOf]
      refine ⟨?_, ?_, ?_⟩
      · simp [jwtSign, jwtVerify]
      · simp [login, hfind, loginClaims, bcryptCompare, newUserOf, jwtSign,
          jwtVerify]
      · rw [hfind]
        simp [newUserOf]
    · simp [register, hf, hr] at h

/-- C7 witness: register `c7inp` on the empty database, then log in with
the same credentials; the login token decodes to the registered
id/email/role. -/
theorem C7_witness :
    loginClaims (login (register ({} : DB) c7inp 3).1 "c@gcafo.bf" "pw") =
      some { userId := 1, email := "c@gcafo.bf", role := "client" } := by
  have h := (C7_token_roundtrip ({} : DB) c7inp 3 (register ({} : DB) c7inp 3).1
    (jwtSign { userId := 1, email := "c@gcafo.bf", role := "client" } jwtSecret)
    (regUserObj (newUserOf ({} : DB) c7inp 3)) (by decide)).2.1
  exact h

/-! ### Claim C8 -/

theorem registerDb_profiles_presta (db : DB) (inp : RegisterInput) (now : Nat)
    (h : inp.role = "prestataire") :
    (registerDb db inp now).prestataire_profiles =
      db.prestataire_profiles ++
        [{ id := db.next_profile_id, user_id := db.next_user_id,
           metier := "Général" }] := by
  simp [registerDb, h, newUserOf]

theorem registerDb_profiles_other (db : DB) (inp : RegisterInput) (now : Nat)
    (h : ¬inp.role = "prestataire") :
    (registerDb db inp now).prestataire_profiles = db.prestataire_profiles := by
  simp [registerDb, h]

theorem map_user_id_update (l : List PrestataireProfile)
    (f : PrestataireProfile → PrestataireProfile)
    (hf : ∀ p, (f p).user_id = p.user_id) :
    (l.map f).map PrestataireProfile.user_id =
      l.map PrestataireProfile.user_id := by
  rw [List.map_map]
  exact List.map_congr_left (fun a _ => hf a)

/-- C8: a successful provider-role registration appends exactly one profile
row, linked to the new user and with the default trade `"Général"` (which
the specification renders as "General"); any other role leaves the profile
table unchanged; and the one-profile-per-user invariant is preserved by
registration (given the profile foreign key and the freshness of the user
sequence) and by every other state-changing operation. -/
theorem C8_profile_invariant (db : DB) (inp : RegisterInput) (now : Nat)
    (hfk : ∀ p ∈ db.prestataire_profiles, ∃ u ∈ db.users, u.id = p.user_id)
    (hfresh : ∀ u ∈ db.users, u.id < db.next_user_id) :
    (∀ db' t o, register db inp now = (db', RegisterResult.created t o) →
      inp.role = "prestataire" →
      db'.prestataire_profiles = db.prestataire_profiles ++
        [{ id := db.next_profile_id, user_id := db.next_user_id,
           metier := "Général" }] ∧
      ∃ u ∈ db'.users,
        u.id = db.next_user_id ∧ u.email = inp.email ∧ u.role = inp.role) ∧
    (inp.role ≠ "prestataire" →
      (register db inp now).1.prestataire_profiles = db.prestataire_profiles) ∧
    (profilesOneToOne db → profilesOneToOne (register db inp now).1) ∧
    (∀ caller bid s n2, profilesOneToOne db →
      profilesOneToOne (updateBookingStatus db caller bid s n2).1) ∧
    (∀ caller bid note comm n2, profilesOneToOne db →
      profilesOneToOne (createReview db caller bid note comm n2).1) ∧
    (∀ caller pin, profilesOneToOne db →
      profilesOneToOne (updateProfile db caller pin).1) ∧
    (∀ caller sin n2, profilesOneToOne db →
      profilesOneToOne (createService db caller sin n2).1) ∧
    (∀ caller bin n2, profilesOneToOne db →
      profilesOneToOne (createBooking db caller bin n2).1) ∧
    (∀ caller bid msg n2, profilesOneToOne db →
      profilesOneToOne (sendMessage db caller bid msg n2).1) := by
  have hnew : db.next_user_id ∉
      db.prestataire_profiles.map PrestataireProfile.user_id := by
    intro hmem
    rcases List.mem_map.mp hmem with ⟨p, hp, hpid⟩
    rcases hfk p hp with ⟨u, hu, hui⟩
    have := hfresh u hu
    omega
  refine ⟨?_, ?_, ?_, ?_, ?_, ?_, ?_, ?_, ?_⟩
  · intro db' t o h hrole
    cases hf : db.users.find? (fun u => u.email == inp.email) with
    | some u => simp [register, hf] at h
    | none =>
      have hr : validRole inp.role = true := by simp [validRole, hrole]
      have hh : (registerDb db inp now,
          RegisterResult.created
            (jwtSign { userId := db.next_user_id, email := inp.email,
                       role := inp.role } jwtSecret)
            (regUserObj (newUserOf db inp now))) =
          (db', RegisterResult.created t o) := by
        rw [← h]
        simp [register, hf, hr]
      rw [Prod.mk.injEq] at hh
      obtain ⟨hdb, _⟩ := hh
      subst hdb
      refine ⟨registerDb_profiles_presta db inp now hrole,
        newUserOf db inp now, ?_, rfl, rfl, rfl⟩
      rw [registerDb_users]
      exact List.mem_append_right _ (by simp)
  · intro hrole
    cases hf : db.users.find? (fun u => u.email == inp.email) with
    | some u => simp [register, hf]
    | none =>
      by_cases hr : validRole inp.role = true
      · simp [register, hf, hr, registerDb_profiles_other db inp now hrole]
      · simp [register, hf, hr]
  · intro h1to
    cases hf : db.users.find? (fun u => u.email == inp.email) with
    | some u =>
      have e : (register db inp now).1 = db := by simp [register, hf]
      unfold profilesOneToOne
      rw [e]
      exact h1to
    | none =>
      by_cases hr : validRole inp.role = true
      · have e : (register db inp now).1 = registerDb db inp now := by
          simp [register, hf, hr]
        by_cases hrole : inp.role = "prestataire"
        · unfold profilesOneToOne
          rw [e, registerDb_profiles_presta db inp now hrole, List.map_append,
            List.nodup_append]
          refine ⟨h1to, by simp, ?_⟩
          intro a ha hb
          simp only [List.map_cons, List.map_nil, List.mem_singleton] at hb
          subst hb
          exact hnew ha
        · unfold profilesOneToOne
          rw [e, registerDb_profiles_other db inp now hrole]
          exact h1to
      · have e : (register db inp now).1 = db := by simp [register, hf, hr]
        unfold profilesOneToOne
        rw [e]
        exact h1to
  · intro caller bid s n2 h1to
    have e : (updateBookingStatus db caller bid s n2).1.prestataire_profiles =
        db.prestataire_profiles := by
      cases hb : db.bookings.find? (fun b => b.id == bid) with
      | none => simp [updateBookingStatus, hb]
      | some b =>
        by_cases hs : s ∈ allowedStatuts <;> simp [updateBookingStatus, hb, hs]
    unfold profilesOneToOne
    rw [e]
    exact h1to
  · intro caller bid note comm n2 h1to
    have e : (createReview db caller bid note comm n2).1.prestataire_profiles.map
          PrestataireProfile.user_id =
        db.prestataire_profiles.map PrestataireProfile.user_id := by
      cases hb : db.bookings.find? (fun b =>
          b.id == bid && b.client_id == caller && b.statut == "termine") with
      | none => simp [createReview, hb]
      | some b =>
        cases hrv : db.reviews.find? (fun r => r.booking_id == bid) with
        | some r => simp [createReview, hb, hrv]
        | none =>
          by_cases hn : 1 ≤ note ∧ note ≤ 5
          · simp only [createReview, hb, hrv, if_pos hn,
              recomputeAggregates]
            apply map_user_id_update
            intro p
            by_cases hp : (p.id == b.prestataire_id) = true <;> simp [hp]
          · simp [createReview, hb, hrv, hn]
    unfold profilesOneToOne
    rw [e]
    exact h1to
  · intro caller pin h1to
    have e : (updateProfile db caller pin).1.prestataire_profiles.map
          PrestataireProfile.user_id =
        db.prestataire_profiles.map PrestataireProfile.user_id := by
      cases hp : db.prestataire_profiles.find? (fun p => p.user_id == caller) with
      | none => simp [updateProfile, hp]
      | some p =>
        cases hm : pin.metier with
        | none => simp [updateProfile, hp, hm]
        | some m =>
          simp only [updateProfile, hp, hm]
          apply map_user_id_update
          intro q
          by_cases hq : (q.user_id == caller) = true <;> simp [hq]
    unfold profilesOneToOne
    rw [e]
    exact h1to
  · intro caller sin n2 h1to
    have e : (createService db caller sin n2).1.prestataire_profiles =
        db.prestataire_profiles := by
      cases hu : db.users.find? (fun u => u.id == caller) with
      | none => simp [createService, hu]
      | some u =>
        by_cases hur : (u.role != "prestataire") = true
        · simp [createService, hu, hur]
        · cases hpp : db.prestataire_profiles.find?
              (fun p => p.user_id == caller) with
          | none => simp [createService, hu, hur, hpp]
          | some p => simp [createService, hu, hur, hpp]
    unfold profilesOneToOne
    rw [e]
    exact h1to
  · intro caller bin n2 h1to
    have e : (createBooking db caller bin n2).1.prestataire_profiles =
        db.prestataire_profiles := by
      by_cases hc : (db.users.any (fun u => u.id == caller) &&
          db.prestataire_profiles.any (fun p => p.id == bin.prestataire_id) &&
          db.services.any (fun s => s.id == bin.service_id)) = true
      · simp [createBooking, hc]
      · simp [createBooking, hc]
    unfold profilesOneToOne
    rw [e]
    exact h1to
  · intro caller bid msg n2 h1to
    have e : (sendMessage db caller bid msg n2).1.prestataire_profiles =
        db.prestataire_profiles := by
      by_cases hc : (db.bookings.any (fun b => b.id == bid) &&
          db.users.any (fun u => u.id == caller)) = true
      · simp [sendMessage, hc]
      · simp [sendMessage, hc]
    unfold profilesOneToOne
    rw [e]
    exact h1to

/-- C8 witness: registering the provider `c8inp` on the empty database
creates exactly the one default profile row, linked to user 1. -/
theorem C8_witness :
    (register ({} : DB) c8inp 4).1.prestataire_profiles =
      [{ id := 1, user_id := 1, metier := "Général" }] := by
  have h := ((C8_profile_invariant ({} : DB) c8inp 4 (by decide) (by decide)).1
    (register ({} : DB) c8inp 4).1
    (jwtSign { userId := 1, email := "p@gcafo.bf", role := "prestataire" }
      jwtSecret)
    (regUserObj (newUserOf ({} : DB) c8inp 4)) (by decide) rfl).1
  simpa using h

/-! ### Claim C3 -/

/-- Looking up the targeted profile after the aggregate UPDATE yields the
old row with the recomputed average and count. -/
theorem recompute_find (db : DB) (pid : Nat) (p : PrestataireProfile)
    (hp : db.prestataire_profiles.find? (fun q => q.id == pid) = some p) :
    (recomputeAggregates db pid).prestataire_profiles.find?
        (fun q => q.id == pid) =
      some { p with
        note_moyenne := roundHundredths (linkedReviewNotes db pid).sum
          ((linkedReviewNotes db pid).length : Int),
        nombre_avis := (linkedReviewNotes db pid).length } := by
  simp only [recomputeAggregates]
  rw [find?_map_pred (fun q => q.id == pid)
    (fun q => if q.id == pid then
        { q with
          note_moyenne := roundHundredths (linkedReviewNotes db pid).sum
            ((linkedReviewNotes db pid).length : Int),
          nombre_avis := (linkedReviewNotes db pid).length }
      else q)
    (fun x => by by_cases hx : (x.id == pid) = true <;> simp [hx])
    db.prestataire_profiles]
  rw [hp]
  have hpid := List.find?_some hp
  simp only [beq_iff_eq] at hpid
  simp [hpid]

/-- C3: a successful review creation appends the new rating to the ratings
joined through the provider's bookings (so after the Nth creation those
are exactly the N ratings), and in the same operation the owning profile
is updated so that `nombre_avis` is their count and `note_moyenne` is
their arithmetic mean rounded to 2 decimal places — on the hundredths
scale, `roundHundredths sum count = round (sum / count * 100)`. -/
theorem C3_aggregates (db : DB) (caller bid : Nat) (note : Int)
    (comm : Option String) (now : Nat) (db' : DB) (r : Review) (b : Booking)
    (p : PrestataireProfile)
    (h : createReview db caller bid note comm now = (db', ReviewResult.created r))
    (hb : db.bookings.find? (fun x =>
        x.id == bid && x.client_id == caller && x.statut == "termine") = some b)
    (hp : db.prestataire_profiles.find?
        (fun q => q.id == b.prestataire_id) = some p)
    (hnodup : (db.bookings.map Booking.id).Nodup) :
    linkedReviewNotes db' b.prestataire_id =
      linkedReviewNotes db b.prestataire_id ++ [note] ∧
    db'.prestataire_profiles.find? (fun q => q.id == b.prestataire_id) =
      some { p with
        note_moyenne :=
          roundHundredths (linkedReviewNotes db' b.prestataire_id).sum
            ((linkedReviewNotes db' b.prestataire_id).length : Int),
        nombre_avis := (linkedReviewNotes db' b.prestataire_id).length } ∧
    roundHundredths (linkedReviewNotes db' b.prestataire_id).sum
        ((linkedReviewNotes db' b.prestataire_id).length : Int) =
      round (((linkedReviewNotes db' b.prestataire_id).sum : ℚ) /
        ((linkedReviewNotes db' b.prestataire_id).length : ℚ) * 100) := by
  cases hrv : db.reviews.find? (fun x => x.booking_id == bid) with
  | some r0 => simp [createReview, hb, hrv] at h
  | none =>
    by_cases hn : 1 ≤ note ∧ note ≤ 5
    · have hh : createReview db caller bid note comm now =
          (recomputeAggregates
            (insertReviewDb db
              { id := db.next_review_id, booking_id := bid, note := note,
                commentaire := comm, created_at := now }) b.prestataire_id,
           ReviewResult.created
             { id := db.next_review_id, booking_id := bid, note := note,
               commentaire := comm, created_at := now }) := by
        simp [createReview, hb, hrv, hn]
      rw [h, Prod.mk.injEq] at hh
      obtain ⟨hdb, -⟩ := hh
      subst hdb
      have hbprops := List.find?_some hb
      simp only [Bool.and_eq_true, beq_iff_eq] at hbprops
      have hfilter : db.bookings.filter (fun x =>
          x.id == bid && x.prestataire_id == b.prestataire_id) = [b] := by
        apply filter_eq_singleton_of_nodup Booking.id db.bookings hnodup b
          (List.mem_of_find?_eq_some hb)
        · intro x hx hpx
          simp only [Bool.and_eq_true, beq_iff_eq] at hpx
          rw [hpx.1, hbprops.1.1]
        · simp [hbprops.1.1]
      have hA : linkedReviewNotes (recomputeAggregates
          (insertReviewDb db
            { id := db.next_review_id, booking_id := bid, note := note,
              commentaire := comm, created_at := now }) b.prestataire_id)
            b.prestataire_id =
          linkedReviewNotes (insertReviewDb db
            { id := db.next_review_id, booking_id := bid, note := note,
              commentaire := comm, created_at := now }) b.prestataire_id := rfl
      have hB : linkedReviewNotes
          (insertReviewDb db
            { id := db.next_review_id, booking_id := bid, note := note,
              commentaire := comm, created_at := now }) b.prestataire_id =
          linkedReviewNotes db b.prestataire_id ++ [note] := by
        simp only [linkedReviewNotes, insertReviewDb]
        rw [List.flatMap_append]
        congr 1
        simp [hfilter]
      refine ⟨hA.trans hB, ?_, ?_⟩
      · rw [hA]
        have hpfind : (insertReviewDb db
            { id := db.next_review_id, booking_id := bid, note := note,
              commentaire := comm, created_at := now
            }).prestataire_profiles.find?
            (fun q => q.id == b.prestataire_id) = some p := hp
        exact recompute_find _ b.prestataire_id p hpfind
      · rw [hA, hB]
        have hpos : (0 : ℤ) <
            ((linkedReviewNotes db b.prestataire_id ++ [note]).length : ℤ) := by
          simp only [List.length_append, List.length_cons, List.length_nil]
          omega
        have hr := roundHundredths_eq_round
          (linkedReviewNotes db b.prestataire_id ++ [note]).sum _ hpos
        simpa using hr
    · simp [createReview, hb, hrv, hn] at h

/-- C3 witness: on `c3db` (one completed booking, no reviews) creating a
review with rating 5 makes the provider's linked ratings exactly `[5]` and
sets the profile to average 5.00 (500 hundredths) with one review. -/
theorem C3_witness :
    linkedReviewNotes (createReview c3db 1 1 5 none 9).1 1 = [5] ∧
    (createReview c3db 1 1 5 none 9).1.prestataire_profiles.find?
        (fun q => q.id == 1) =
      some { id := 1, user_id := 2, metier := "Général", note_moyenne := 500,
             nombre_avis := 1 } := by
  have h := C3_aggregates c3db 1 1 5 none 9 (createReview c3db 1 1 5 none 9).1
    { id := 1, booking_id := 1, note := 5, created_at := 9 }
    { id := 1, client_id := 1, prestataire_id := 1, service_id := 1,
      statut := "termine" }
    { id := 1, user_id := 2, metier := "Général" }
    (by decide) (by decide) (by decide) (by decide)
  refine ⟨?_, ?_⟩
  · rw [h.1]
    decide
  · rw [h.2.1]
    decide

/-! ### Claim C9 -/

/-- C9 counterexample: the handler interpolates the city filter into an
`ILIKE '%…%'` pattern without escaping, so SQL wildcards in the filter act
as wildcards.  With filter `"_"` (match any one character) the provider in
`"Paris"` is returned although `"_"` is not a case-insensitive substring of
`"Paris"` — refuting "returns only users … whose city contains V as a
case-insensitive substring". -/
theorem C9_counterexample :
    listRows (getPrestataires c9db (some "_") none 1 10) =
      [providerListRow
        { id := 1, email := "paris@gcafo.bf", password := bcryptHash "pw" 10,
          role := "prestataire", full_name := "Presta Paris",
          ville := some "Paris" }
        { id := 1, user_id := 1, metier := "Général" }] ∧
    strContainsCI "Paris" "_" = false := by
  decide

/-- C9 (amended): for page P ≥ 1 and limit L, the provider list returns at
most L rows, exactly the window starting at offset (P-1)×L of the
role-filtered, city-filtered join sorted by average rating descending;
every returned row comes from a provider user whose (non-null) city
matches the `ILIKE '%V%'` pattern — which, whenever V is free of the LIKE
wildcard/escape characters `%`, `_` and backslash, is exactly
case-insensitive substring containment of V. -/
theorem C9_provider_list (db : DB) (v : String) (page limit : Nat)
    (hp : 1 ≤ page) :
    getPrestataires db (some v) none page limit =
      PrestatairesResult.ok
        ((((sortDesc (fun up => up.2.note_moyenne)
              (filteredProviders db (some v) none)).map
            (fun up => providerListRow up.1 up.2)).drop
          ((page - 1) * limit)).take limit) page limit ∧
    (listRows (getPrestataires db (some v) none page limit)).length ≤ limit ∧
    (sortDesc (fun up => up.2.note_moyenne)
        (filteredProviders db (some v) none)).Pairwise
      (fun a b => b.2.note_moyenne ≤ a.2.note_moyenne) ∧
    (∀ o ∈ listRows (getPrestataires db (some v) none page limit),
      ∃ u p, u ∈ db.users ∧ p ∈ db.prestataire_profiles ∧
        p.user_id = u.id ∧ u.role = "prestataire" ∧
        (∃ s, u.ville = some s ∧ ilikeStr s ("%" ++ v ++ "%") = true) ∧
        o = providerListRow u p) ∧
    (litOnly (v.toList.map Char.toLower) = true →
      ∀ o ∈ listRows (getPrestataires db (some v) none page limit),
        ∃ u p s, u.ville = some s ∧ o = providerListRow u p ∧
          ∃ l r, s.toList.map Char.toLower =
            l ++ v.toList.map Char.toLower ++ r) := by
  have h1p : (1 : Int) ≤ (page : Int) := by exact_mod_cast hp
  have hoff : ¬(((page : Int) - 1) * (limit : Int) < 0) := by
    refine not_lt.mpr (mul_nonneg (by omega) ?_)
    exact Int.natCast_nonneg limit
  have hcast : ((page : Int) - 1) * (limit : Int) =
      (((page - 1) * limit : ℕ) : Int) := by
    rw [Nat.cast_mul, Nat.cast_sub hp]
    push_cast
    ring
  have htn : (((page : Int) - 1) * (limit : Int)).toNat = (page - 1) * limit := by
    rw [hcast, Int.toNat_natCast]
  have hmain : getPrestataires db (some v) none page limit =
      PrestatairesResult.ok
        ((((sortDesc (fun up => up.2.note_moyenne)
              (filteredProviders db (some v) none)).map
            (fun up => providerListRow up.1 up.2)).drop
          ((page - 1) * limit)).take limit) page limit := by
    simp [getPrestataires, hoff, htn]
  have hmem : ∀ o ∈ listRows (getPrestataires db (some v) none page limit),
      ∃ u p, u ∈ db.users ∧ p ∈ db.prestataire_profiles ∧
        p.user_id = u.id ∧ u.role = "prestataire" ∧
        (∃ s, u.ville = some s ∧ ilikeStr s ("%" ++ v ++ "%") = true) ∧
        o = providerListRow u p := by
    intro o ho
    rw [hmain] at ho
    simp only [listRows] at ho
    have ho1 : o ∈ (sortDesc (fun up => up.2.note_moyenne)
        (filteredProviders db (some v) none)).map
        (fun up => providerListRow up.1 up.2) :=
      List.mem_of_mem_drop (List.mem_of_mem_take ho)
    rcases List.mem_map.mp ho1 with ⟨up, hup, rfl⟩
    have hupf : up ∈ filteredProviders db (some v) none :=
      (mem_sortDesc _ _ _).mp hup
    rcases List.mem_filter.mp hupf with ⟨hupj, hpred⟩
    rcases List.mem_flatMap.mp hupj with ⟨u, hu, hup2⟩
    rcases List.mem_map.mp hup2 with ⟨q, hq, rfl⟩
    rcases List.mem_filter.mp hq with ⟨hqmem, hquid⟩
    simp only [Bool.and_eq_true, beq_iff_eq] at hpred hquid
    refine ⟨u, q, hu, hqmem, hquid, hpred.1.1, ?_, rfl⟩
    cases hv : u.ville with
    | none =>
      exfalso
      have := hpred.1.2
      rw [hv] at this
      simp [optIlike] at this
    | some s =>
      refine ⟨s, rfl, ?_⟩
      have := hpred.1.2
      rw [hv] at this
      simpa [optIlike] using this
  refine ⟨hmain, ?_, sorted_sortDesc _ _, hmem, ?_⟩
  · rw [hmain]
    simp only [listRows]
    exact List.length_take_le _ _
  · intro hlit o ho
    rcases hmem o ho with ⟨u, p, _, _, _, _, ⟨s, hvs, hlike⟩, hobj⟩
    refine ⟨u, p, s, hvs, hobj, ?_⟩
    rw [ilikeStr_wrap s v hlit] at hlike
    simp only [strContainsCI] at hlike
    exact (containsSub_iff _ _).mp hlike

/-- C9 witness: on `c9db`, filtering by the wildcard-free city substring
`"ari"` returns a nonempty page of at most 10 rows. -/
theorem C9_witness :
    listRows (getPrestataires c9db (some "ari") none 1 10) ≠ [] ∧
    (listRows (getPrestataires c9db (some "ari") none 1 10)).length ≤ 10 :=
  ⟨by decide, (C9_provider_list c9db "ari" 1 10 (by decide)).2.1⟩

end GcafoBooking
